import Mathlib

/-!
Shallow embedding of the community-map backend (src/backend/server.py).

Modelling conventions:
* Python floats (coordinates, distances) are modelled by real numbers `ℝ`;
  trigonometric functions are the exact real ones.
* `datetime` values are modelled by rational numbers `ℚ` counting seconds;
  `timedelta(hours=6)` is `21600`, `timedelta(minutes=2)` is `120`.
  Each request handler receives one logical current time `now` (the Python
  code calls `datetime.now` several times per request, microseconds apart;
  the model uses a single instant).  Timestamps are stored in one canonical
  form, so the ISO-string round-trips in the code are identities here.
* The MongoDB collection is modelled as a `List` of documents in natural
  (insertion) order.  `find(filter).to_list(1000)` is `filter` followed by
  `take 1000`; `update_one` touches the first matching document;
  `delete_many` removes every matching document; `$inc` on a missing field
  creates it with the incremented value, which is why the legacy counter
  fields are `Option ℕ` (documents written before those fields existed).
* An update document `{"$set": {}}` is rejected by MongoDB
  (FailedToParse, "set is empty"); the resulting driver exception is not an
  `HTTPException`, so FastAPI surfaces it as a generic server fault (500).
  This is modelled by `ApiError.serverError`.
-/

namespace CommunityMap

/-- Python `math.radians`: degrees to radians. -/
noncomputable def radians (x : ℝ) : ℝ := x * Real.pi / 180

/-- Python `math.atan2 y x` (two-argument arctangent, exact-real model). -/
noncomputable def atan2 (y x : ℝ) : ℝ :=
  if 0 < x then Real.arctan (y / x)
  else if x < 0 ∧ 0 ≤ y then Real.arctan (y / x) + Real.pi
  else if x < 0 ∧ y < 0 then Real.arctan (y / x) - Real.pi
  else if x = 0 ∧ 0 < y then Real.pi / 2
  else if x = 0 ∧ y < 0 then -(Real.pi / 2)
  else 0

/-- The intermediate Haversine quantity `a` of `calculate_distance`
(server.py line 75).  The code passes it to `math.sqrt` unclamped. -/
noncomputable def haversine_a (lat1 lon1 lat2 lon2 : ℝ) : ℝ :=
  let phi1 := radians lat1
  let phi2 := radians lat2
  let delta_phi := radians (lat2 - lat1)
  let delta_lambda := radians (lon2 - lon1)
  Real.sin (delta_phi / 2) ^ 2 +
    Real.cos phi1 * Real.cos phi2 * Real.sin (delta_lambda / 2) ^ 2

/-- `calculate_distance` (server.py lines 64-78): Haversine distance in
meters, Earth radius 6371000 m. -/
noncomputable def calculate_distance (lat1 lon1 lat2 lon2 : ℝ) : ℝ :=
  let R : ℝ := 6371000
  let a := haversine_a lat1 lon1 lat2 lon2
  let c := 2 * atan2 (Real.sqrt a) (Real.sqrt (1 - a))
  R * c

lemma radians_zero : radians 0 = 0 := by
  simp [radians]

lemma radians_neg (x : ℝ) : radians (-x) = -radians x := by
  simp [radians]; ring

lemma atan2_zero_one : atan2 0 1 = 0 := by
  simp [atan2, Real.arctan_zero]

lemma haversine_a_self (lat lon : ℝ) : haversine_a lat lon lat lon = 0 := by
  simp [haversine_a, radians_zero]

lemma calculate_distance_self (lat lon : ℝ) :
    calculate_distance lat lon lat lon = 0 := by
  simp [calculate_distance, haversine_a_self, Real.sqrt_zero, Real.sqrt_one,
    atan2_zero_one]

lemma haversine_a_symm (lat1 lon1 lat2 lon2 : ℝ) :
    haversine_a lat1 lon1 lat2 lon2 = haversine_a lat2 lon2 lat1 lon1 := by
  have h1 : radians (lat1 - lat2) = -radians (lat2 - lat1) := by
    rw [← radians_neg]; ring_nf
  have h2 : radians (lon1 - lon2) = -radians (lon2 - lon1) := by
    rw [← radians_neg]; ring_nf
  simp only [haversine_a, h1, h2]
  rw [neg_div, Real.sin_neg, neg_div, Real.sin_neg]
  ring

lemma calculate_distance_symm (lat1 lon1 lat2 lon2 : ℝ) :
    calculate_distance lat1 lon1 lat2 lon2 =
      calculate_distance lat2 lon2 lat1 lon1 := by
  simp only [calculate_distance, haversine_a_symm lat1 lon1 lat2 lon2]

/-- C4: for every coordinate pair A, `calculate_distance(A, A) = 0`, and for
every two coordinate pairs A and B,
`calculate_distance(A, B) = calculate_distance(B, A)`. -/
theorem C4_distance_zero_and_symmetric (lat1 lon1 lat2 lon2 : ℝ) :
    calculate_distance lat1 lon1 lat1 lon1 = 0 ∧
      calculate_distance lat1 lon1 lat2 lon2 =
        calculate_distance lat2 lon2 lat1 lon1 :=
  ⟨calculate_distance_self lat1 lon1, calculate_distance_symm lat1 lon1 lat2 lon2⟩

/-- C3: `calculate_distance` does NOT clamp `a` to [0,1] before taking the
square roots.  At the exactly antipodal input
`(lat1, lon1) = (-87.5, 0)`, `(lat2, lon2) = (87.5, 180)` the exact value of
`a` is exactly 1, the boundary of the domain of `sqrt (1 - a)`; in IEEE-754
double arithmetic the same expression evaluates to 1.0000000000000002, so
the unclamped `math.sqrt(1 - a)` in the code receives a negative argument
and raises a floating-point domain error, contradicting the claim that no
domain error can occur. -/
theorem C3_a_reaches_sqrt_domain_boundary :
    haversine_a (-87.5) 0 87.5 180 = 1 := by
  have h180 : radians (87.5 - -87.5) / 2 = radians 87.5 := by
    unfold radians; ring
  have hpi : radians (180 - 0) / 2 = Real.pi / 2 := by
    unfold radians; ring
  have hneg : radians (-87.5) = -radians 87.5 := by
    simpa using radians_neg (87.5 : ℝ)
  simp only [haversine_a, h180, hpi, hneg, Real.cos_neg, Real.sin_pi_div_two,
    one_pow, mul_one]
  rw [← pow_two]
  exact Real.sin_sq_add_cos_sq (radians 87.5)

/-- `IncidentCreate` (server.py lines 29-37): the request body of
`POST /incidents`.  `Option String` models pydantic `Optional[str]`. -/
structure IncidentCreate where
  category : String
  urgency : String
  description : String
  latitude : ℝ
  longitude : ℝ
  contact_email : Option String := none
  contact_phone : Option String := none
  is_verified : Bool := false

/-- An incident document as stored in the `incidents` collection.
`like_count`/`dislike_count` are `Option ℕ` because documents written
before those fields existed lack them (the listing endpoints backfill 0,
and `$inc` creates a missing field with the increment). -/
structure StoredIncident where
  id : String
  category : String
  urgency : String
  description : String
  latitude : ℝ
  longitude : ℝ
  contact_email : Option String
  contact_phone : Option String
  is_verified : Bool
  cluster_count : ℕ
  like_count : Option ℕ
  dislike_count : Option ℕ
  timestamp : ℚ

/-- Python truthiness of an `Optional[str]`: `None` and `""` are falsy. -/
def truthyStr : Option String → Bool
  | none => false
  | some s => s ≠ ""

/-- One step of the clustering loop in `create_incident` (server.py lines
147-163): skip candidates older than 6 hours, then count those within
500 m. -/
noncomputable def clusterStep (now : ℚ) (input : IncidentCreate) (count : ℕ)
    (existing : StoredIncident) : ℕ :=
  if (21600 : ℚ) < now - existing.timestamp then count
  else if calculate_distance input.latitude input.longitude
      existing.latitude existing.longitude ≤ 500 then count + 1
  else count

/-- `create_incident` (server.py lines 133-178).  Returns the stored and
returned incident together with the new store contents.  `now` is the
request's logical current time (it stamps the new incident and is the
reference for candidate ages); `newId` is the generated uuid. -/
noncomputable def create_incident (now : ℚ) (newId : String)
    (store : List StoredIncident) (input : IncidentCreate) :
    StoredIncident × List StoredIncident :=
  let is_verified := truthyStr input.contact_email || truthyStr input.contact_phone
  let existing := (store.filter (fun i => i.category == input.category)).take 1000
  let cluster_count := existing.foldl (clusterStep now input) 1
  let incident_obj : StoredIncident :=
    { id := newId
      category := input.category
      urgency := input.urgency
      description := input.description
      latitude := input.latitude
      longitude := input.longitude
      contact_email := input.contact_email
      contact_phone := input.contact_phone
      is_verified := is_verified
      cluster_count := cluster_count
      like_count := some 0
      dislike_count := some 0
      timestamp := now }
  (incident_obj, store ++ [incident_obj])

/-- The public view of an incident (`GET /incidents` excludes `_id`,
`contact_email`, `contact_phone` and backfills missing counters with 0). -/
structure PublicIncident where
  id : String
  category : String
  urgency : String
  description : String
  latitude : ℝ
  longitude : ℝ
  is_verified : Bool
  cluster_count : ℕ
  like_count : ℕ
  dislike_count : ℕ
  timestamp : ℚ

def toPublic (i : StoredIncident) : PublicIncident :=
  { id := i.id
    category := i.category
    urgency := i.urgency
    description := i.description
    latitude := i.latitude
    longitude := i.longitude
    is_verified := i.is_verified
    cluster_count := i.cluster_count
    like_count := i.like_count.getD 0
    dislike_count := i.dislike_count.getD 0
    timestamp := i.timestamp }

/-- `get_incidents` (server.py lines 180-213): delete incidents older than
6 hours, fetch up to 1000 of the remainder without contact fields,
backfill counters, then — only when `hours` is truthy, i.e. neither `None`
nor `0` — keep incidents with `timestamp >= now - hours` hours.  Returns
the response list and the store contents after the sweep. -/
def get_incidents (now : ℚ) (hours : Option ℕ)
    (store : List StoredIncident) :
    List PublicIncident × List StoredIncident :=
  let swept := store.filter (fun i => ¬ i.timestamp < now - 21600)
  let incidents := (swept.take 1000).map toPublic
  let result :=
    match hours with
    | none => incidents
    | some h =>
      if h = 0 then incidents
      else incidents.filter (fun i => now - h * 3600 ≤ i.timestamp)
  (result, swept)

/-- The admin view (`GET /admin/incidents` keeps contact fields, normalises
the timestamp and backfills missing counters with 0). -/
structure AdminIncident where
  id : String
  category : String
  urgency : String
  description : String
  latitude : ℝ
  longitude : ℝ
  contact_email : Option String
  contact_phone : Option String
  is_verified : Bool
  cluster_count : ℕ
  like_count : ℕ
  dislike_count : ℕ
  timestamp : ℚ

def toAdmin (i : StoredIncident) : AdminIncident :=
  { id := i.id
    category := i.category
    urgency := i.urgency
    description := i.description
    latitude := i.latitude
    longitude := i.longitude
    contact_email := i.contact_email
    contact_phone := i.contact_phone
    is_verified := i.is_verified
    cluster_count := i.cluster_count
    like_count := i.like_count.getD 0
    dislike_count := i.dislike_count.getD 0
    timestamp := i.timestamp }

/-- `get_admin_incidents` (server.py lines 215-247): fetches up to 1000
documents, normalises timestamps and backfills counters.  It performs NO
expiry sweep — there is no `delete_many` in this handler — so it needs no
current time.  Returns the response list and the (unchanged) store. -/
def get_admin_incidents (store : List StoredIncident) :
    List AdminIncident × List StoredIncident :=
  ((store.take 1000).map toAdmin, store)

/-- HTTP-level failure outcomes of the handlers.  `badRequest` is
`HTTPException(400)`, `notFound` is `HTTPException(404)`, `serverError` is
an exception that is not an `HTTPException` (FastAPI returns 500). -/
inductive ApiError where
  | badRequest
  | notFound
  | serverError
deriving DecidableEq, Repr

/-- Replace the first element satisfying `p` (MongoDB `update_one`
semantics on the modelled collection). -/
def updateFirst (p : α → Bool) (f : α → α) : List α → List α
  | [] => []
  | x :: xs => if p x then f x :: xs else x :: updateFirst p f xs

/-- A `PUT /admin/incidents/{id}` payload: each field of the incident
document that the JSON body may carry.  `none` means the key is absent.
(Arbitrary extra keys would create new document fields; they are outside
this typed model.) -/
structure UpdatePayload where
  id : Option String := none
  category : Option String := none
  urgency : Option String := none
  description : Option String := none
  latitude : Option ℝ := none
  longitude : Option ℝ := none
  contact_email : Option String := none
  contact_phone : Option String := none
  is_verified : Option Bool := none
  cluster_count : Option ℕ := none
  like_count : Option ℕ := none
  dislike_count : Option ℕ := none
  timestamp : Option ℚ := none

/-- `update_data.pop('id', None); update_data.pop('timestamp', None)`
(server.py lines 267-268). -/
def UpdatePayload.strip (p : UpdatePayload) : UpdatePayload :=
  { p with id := none, timestamp := none }

/-- The payload carries no keys at all. -/
def UpdatePayload.isEmpty (p : UpdatePayload) : Bool :=
  p.id.isNone && p.category.isNone && p.urgency.isNone &&
    p.description.isNone && p.latitude.isNone && p.longitude.isNone &&
    p.contact_email.isNone && p.contact_phone.isNone &&
    p.is_verified.isNone && p.cluster_count.isNone &&
    p.like_count.isNone && p.dislike_count.isNone && p.timestamp.isNone

/-- MongoDB `$set` of the payload's keys on one document. -/
def applySet (i : StoredIncident) (p : UpdatePayload) : StoredIncident :=
  { id := p.id.getD i.id
    category := p.category.getD i.category
    urgency := p.urgency.getD i.urgency
    description := p.description.getD i.description
    latitude := p.latitude.getD i.latitude
    longitude := p.longitude.getD i.longitude
    contact_email := (p.contact_email.map some).getD i.contact_email
    contact_phone := (p.contact_phone.map some).getD i.contact_phone
    is_verified := p.is_verified.getD i.is_verified
    cluster_count := p.cluster_count.getD i.cluster_count
    like_count := (p.like_count.map some).getD i.like_count
    dislike_count := (p.dislike_count.map some).getD i.dislike_count
    timestamp := p.timestamp.getD i.timestamp }

/-- `update_incident` (server.py lines 261-278): strips `id` and
`timestamp`, then calls `update_one({"id": id}, {"$set": data})`.
MongoDB rejects an empty `$set` document before matching anything, and
that driver exception is unhandled, so an empty effective payload yields
`serverError` whether or not the id exists.  Otherwise a missing id gives
`matched_count == 0`, hence 404, and a match `$set`s the first matching
document. -/
def update_incident (store : List StoredIncident) (incident_id : String)
    (payload : UpdatePayload) : Except ApiError (List StoredIncident) :=
  let data := payload.strip
  if data.isEmpty then .error .serverError
  else if store.any (fun i => i.id == incident_id) then
    .ok (updateFirst (fun i => i.id == incident_id) (fun i => applySet i data) store)
  else .error .notFound

/-- MongoDB `{"$inc": {field: 1}}` on one document: a missing counter field
is created with value 1. -/
def incrementField (isLike : Bool) (i : StoredIncident) : StoredIncident :=
  if isLike then { i with like_count := some (i.like_count.getD 0 + 1) }
  else { i with dislike_count := some (i.dislike_count.getD 0 + 1) }

/-- `react_to_incident` (server.py lines 283-311): 400 unless the kind is
`"like"` or `"dislike"`; `$inc` the corresponding counter on the first
document with the id (404 when none matches); re-fetch that document and
return its counter pair (`.get(..., 0)` backfill). -/
def react_to_incident (store : List StoredIncident) (incident_id : String)
    (reaction : String) :
    Except ApiError ((ℕ × ℕ) × List StoredIncident) :=
  if reaction ≠ "like" ∧ reaction ≠ "dislike" then .error .badRequest
  else
    let isLike := reaction == "like"
    if store.any (fun i => i.id == incident_id) then
      let store2 := updateFirst (fun i => i.id == incident_id)
        (incrementField isLike) store
      match store2.find? (fun i => i.id == incident_id) with
      | none => .error .notFound
      | some updated =>
        .ok ((updated.like_count.getD 0, updated.dislike_count.getD 0), store2)
    else .error .notFound

/-- A document of the `active_users` collection. -/
structure PresenceRecord where
  session_id : String
  last_heartbeat : ℚ

/-- `user_heartbeat` (server.py lines 314-336): upsert the caller's record
with the current time, delete records strictly older than two minutes,
count the remaining records with `last_heartbeat >= cutoff`, and return
`success` with the count.  Returns `((success, active_count), store)`. -/
def user_heartbeat (now : ℚ) (session_id : String)
    (store : List PresenceRecord) : (Bool × ℕ) × List PresenceRecord :=
  let cutoff := now - 120
  let upserted :=
    if store.any (fun r => r.session_id == session_id) then
      updateFirst (fun r => r.session_id == session_id)
        (fun r => { r with last_heartbeat := now }) store
    else store ++ [{ session_id := session_id, last_heartbeat := now }]
  let cleaned := upserted.filter (fun r => ¬ r.last_heartbeat < cutoff)
  let active_count := cleaned.countP (fun r => cutoff ≤ r.last_heartbeat)
  ((true, active_count), cleaned)

/-! Helper lemmas shared by the claim theorems. -/

lemma truthyStr_eq_true (e : Option String) :
    truthyStr e = true ↔ ∃ s, e = some s ∧ s ≠ "" := by
  cases e <;> simp [truthyStr]

lemma updateFirst_exists {α} (p : α → Bool) (f : α → α) :
    ∀ l : List α, l.any p = true → ∃ y, p y = true ∧ f y ∈ updateFirst p f l := by
  intro l h
  induction l with
  | nil => simp at h
  | cons x xs ih =>
    by_cases hx : p x
    · exact ⟨x, hx, by simp [updateFirst, hx]⟩
    · simp only [List.any_cons, hx, Bool.false_or] at h
      obtain ⟨y, hy, hmem⟩ := ih h
      exact ⟨y, hy, by simp [updateFirst, hx, hmem]⟩

lemma updateFirst_append_first {α} (p : α → Bool) (f : α → α) (i : α)
    (post : List α) (hi : p i = true) :
    ∀ pre : List α, (∀ j ∈ pre, p j = false) →
      updateFirst p f (pre ++ i :: post) = pre ++ f i :: post := by
  intro pre
  induction pre with
  | nil => intro _; simp [updateFirst, hi]
  | cons x xs ih =>
    intro hpre
    have hx : p x = false := hpre x (by simp)
    have hxs : ∀ j ∈ xs, p j = false := fun j hj => hpre j (by simp [hj])
    simp [updateFirst, hx, ih hxs]

lemma find?_append_first {α} (p : α → Bool) (i : α) (post : List α)
    (hi : p i = true) :
    ∀ pre : List α, (∀ j ∈ pre, p j = false) →
      (pre ++ i :: post).find? p = some i := by
  intro pre
  induction pre with
  | nil => intro _; simp [List.find?_cons, hi]
  | cons x xs ih =>
    intro hpre
    have hx : p x = false := hpre x (by simp)
    have hxs : ∀ j ∈ xs, p j = false := fun j hj => hpre j (by simp [hj])
    simp only [List.cons_append, List.find?_cons, hx]
    exact ih hxs

lemma map_updateFirst {α β} (g : α → β) (p : α → Bool) (f : α → α)
    (h : ∀ x, g (f x) = g x) :
    ∀ l : List α, (updateFirst p f l).map g = l.map g := by
  intro l
  induction l with
  | nil => rfl
  | cons x xs ih =>
    by_cases hx : p x
    · simp [updateFirst, hx, h x]
    · simp [updateFirst, hx, ih]

lemma incrementField_id (b : Bool) (i : StoredIncident) :
    (incrementField b i).id = i.id := by
  unfold incrementField; split <;> rfl

lemma countP_replicate_of_pos {α} (p : α → Bool) (a : α) (h : p a = true) :
    ∀ n, (List.replicate n a).countP p = n := by
  intro n
  induction n with
  | zero => simp
  | succ n ih => rw [List.replicate_succ, List.countP_cons_of_pos _ _ h, ih]

lemma take_replicate_of_le {α} (a : α) :
    ∀ n m : ℕ, n ≤ m → (List.replicate m a).take n = List.replicate n a := by
  intro n
  induction n with
  | zero => intro m _; simp
  | succ n ih =>
    intro m hm
    cases m with
    | zero => omega
    | succ m =>
      rw [List.replicate_succ, List.replicate_succ, List.take_succ_cons,
        ih m (by omega)]

/-- Whether an existing incident is counted by the clustering loop: age at
most 6 hours and Haversine distance at most 500 meters. -/
noncomputable def qualifiesB (now : ℚ) (input : IncidentCreate)
    (e : StoredIncident) : Bool :=
  decide (now - e.timestamp ≤ 21600) &&
    decide (calculate_distance input.latitude input.longitude
      e.latitude e.longitude ≤ 500)

lemma foldl_clusterStep (now : ℚ) (input : IncidentCreate) :
    ∀ (l : List StoredIncident) (c : ℕ),
      l.foldl (clusterStep now input) c = c + l.countP (qualifiesB now input) := by
  intro l
  induction l with
  | nil => intro c; simp
  | cons e l ih =>
    intro c
    rw [List.foldl_cons, ih, List.countP_cons]
    unfold clusterStep
    by_cases h1 : (21600 : ℚ) < now - e.timestamp
    · have hq : qualifiesB now input e = false := by
        unfold qualifiesB
        rw [decide_eq_false (not_le.mpr h1), Bool.false_and]
      rw [if_pos h1, hq]
      simp
    · by_cases h2 : calculate_distance input.latitude input.longitude
          e.latitude e.longitude ≤ 500
      · have hq : qualifiesB now input e = true := by
          unfold qualifiesB
          rw [decide_eq_true (not_lt.mp h1), decide_eq_true h2]
          rfl
        rw [if_neg h1, if_pos h2, hq]
        simp only [if_pos]
        omega
      · have hq : qualifiesB now input e = false := by
          unfold qualifiesB
          rw [decide_eq_false h2, Bool.and_false]
        rw [if_neg h1, if_neg h2, hq]
        simp

lemma create_incident_cluster_count (now : ℚ) (newId : String)
    (store : List StoredIncident) (input : IncidentCreate) :
    (create_incident now newId store input).1.cluster_count =
      1 + ((store.filter (fun i => i.category == input.category)).take
        1000).countP (qualifiesB now input) := by
  unfold create_incident
  dsimp only
  rw [foldl_clusterStep]

/-! Concrete sample data used by counterexamples and witnesses. -/

/-- A stored incident of category `"theft"` at the origin, created at
time 0. -/
def sampleIncident : StoredIncident :=
  { id := "a"
    category := "theft"
    urgency := "high"
    description := "d"
    latitude := 0
    longitude := 0
    contact_email := none
    contact_phone := none
    is_verified := false
    cluster_count := 1
    like_count := some 0
    dislike_count := some 0
    timestamp := 0 }

/-- A create request of category `"theft"` at the origin with no contact
information. -/
def sampleInput : IncidentCreate :=
  { category := "theft"
    urgency := "high"
    description := "d"
    latitude := 0
    longitude := 0 }

/-- C10: for every session id and store state, the heartbeat returns
`success = true` and an active count of at least 1: the caller's record is
upserted with the current time before the stale sweep and the count, so
the caller always counts itself. -/
theorem C10_heartbeat_success_and_counts_self (now : ℚ) (sid : String)
    (store : List PresenceRecord) :
    (user_heartbeat now sid store).1.1 = true ∧
      1 ≤ (user_heartbeat now sid store).1.2 := by
  refine ⟨rfl, ?_⟩
  have hmem : ∃ r, r ∈ (if store.any (fun r => r.session_id == sid) then
      updateFirst (fun r => r.session_id == sid)
        (fun r => { r with last_heartbeat := now }) store
    else store ++ [{ session_id := sid, last_heartbeat := now }]) ∧
      r.last_heartbeat = now := by
    by_cases h : store.any (fun r => r.session_id == sid)
    · obtain ⟨y, _, hm⟩ := updateFirst_exists
        (fun r => r.session_id == sid)
        (fun r => { r with last_heartbeat := now }) store h
      exact ⟨_, by rw [if_pos h]; exact hm, rfl⟩
    · refine ⟨{ session_id := sid, last_heartbeat := now }, ?_, rfl⟩
      rw [if_neg h]
      simp
  obtain ⟨r, hr, hnow⟩ := hmem
  simp only [user_heartbeat]
  rw [Nat.one_le_iff_ne_zero, ← Nat.pos_iff_ne_zero, List.countP_pos_iff]
  refine ⟨r, ?_, ?_⟩
  · rw [List.mem_filter]
    refine ⟨hr, ?_⟩
    have hlt : ¬ r.last_heartbeat < now - 120 := by rw [hnow]; linarith
    exact decide_eq_true hlt
  · have hle : now - 120 ≤ r.last_heartbeat := by rw [hnow]; linarith
    exact decide_eq_true hle

/-- C1 counterexample: the clustering loop considers only the first 1000
same-category incidents fetched from the store (`to_list(1000)`), not
every one.  With 1001 qualifying same-category incidents the stored
`cluster_count` is 1001, while the claimed value (1 plus the number of
qualifying candidates among ALL existing same-category incidents) is
1002. -/
theorem C1_candidate_cap_counterexample :
    (create_incident 0 "new" (List.replicate 1001 sampleIncident)
        sampleInput).1.cluster_count ≠
      1 + ((List.replicate 1001 sampleIncident).filter
        (fun i => i.category == sampleInput.category)).countP
          (qualifiesB 0 sampleInput) := by
  have hq : qualifiesB 0 sampleInput sampleIncident = true := by
    unfold qualifiesB
    have h2 : calculate_distance sampleInput.latitude sampleInput.longitude
        sampleIncident.latitude sampleIncident.longitude ≤ 500 := by
      show calculate_distance 0 0 0 0 ≤ 500
      rw [calculate_distance_self]
      norm_num
    have h1 : (0 : ℚ) - sampleIncident.timestamp ≤ 21600 := by
      show (0 : ℚ) - 0 ≤ 21600
      norm_num
    rw [decide_eq_true h1, decide_eq_true h2]
    rfl
  have hfilter : (List.replicate 1001 sampleIncident).filter
      (fun i => i.category == sampleInput.category) =
        List.replicate 1001 sampleIncident := by
    rw [List.filter_eq_self]
    intro a ha
    rw [List.eq_of_mem_replicate ha]
    rfl
  have hlhs : (create_incident 0 "new" (List.replicate 1001 sampleIncident)
      sampleInput).1.cluster_count = 1001 := by
    rw [create_incident_cluster_count, hfilter,
      take_replicate_of_le sampleIncident 1000 1001 (by omega),
      countP_replicate_of_pos _ _ hq]
  rw [hlhs, hfilter, countP_replicate_of_pos _ _ hq]
  omega

/-- C1 (amended): creating an incident stores and returns a
`cluster_count` equal to 1 plus the number of qualifying candidates —
same category, age at most 6 hours, Haversine distance at most 500 m —
among the FIRST 1000 existing same-category incidents in store order, and
appends the new incident to the store, leaving every previously stored
incident (in particular its `cluster_count`) unchanged. -/
theorem C1_cluster_count_amended (now : ℚ) (newId : String)
    (store : List StoredIncident) (input : IncidentCreate) :
    (create_incident now newId store input).1.cluster_count =
        1 + ((store.filter (fun i => i.category == input.category)).take
          1000).countP (qualifiesB now input) ∧
      (create_incident now newId store input).2 =
        store ++ [(create_incident now newId store input).1] := by
  exact ⟨create_incident_cluster_count now newId store input, rfl⟩

/-- C2 counterexample: `get_admin_incidents` performs no expiry sweep.
At time 21601 s (6 hours and 1 second) the incident created at time 0 is
expired, yet the admin listing still returns it. -/
theorem C2_admin_listing_returns_expired :
    (21601 : ℚ) - sampleIncident.timestamp > 6 * 3600 ∧
      toAdmin sampleIncident ∈ (get_admin_incidents [sampleIncident]).1 := by
  constructor
  · show (21601 : ℚ) - 0 > 6 * 3600
    norm_num
  · show toAdmin sampleIncident ∈ ([sampleIncident].take 1000).map toAdmin
    simp

/-- C2 (amended): every incident returned by a public listing call is at
most 6 hours old (the lazy sweep deletes older ones first), so an incident
whose creation timestamp is more than 6 hours in the past is absent from
every public listing result.  The admin listing, by contrast, applies no
expiry sweep: every incident among the first 1000 store entries — expired
or not — appears in the admin listing result. -/
theorem C2_expiry_amended (now : ℚ) (hours : Option ℕ)
    (store : List StoredIncident) :
    (∀ p ∈ (get_incidents now hours store).1, now - p.timestamp ≤ 21600) ∧
      (∀ i ∈ store.take 1000, toAdmin i ∈ (get_admin_incidents store).1) := by
  constructor
  · intro p hp
    have hmem : p ∈ ((store.filter
        (fun i => ¬ i.timestamp < now - 21600)).take 1000).map toPublic := by
      cases hours with
      | none =>
        simp only [get_incidents] at hp
        exact hp
      | some h =>
        simp only [get_incidents] at hp
        by_cases h0 : h = 0
        · subst h0
          rw [if_pos rfl] at hp
          exact hp
        · rw [if_neg h0] at hp
          exact List.mem_of_mem_filter hp
    obtain ⟨i, hi, hpi⟩ := List.mem_map.mp hmem
    have hi2 : i ∈ store.filter (fun i => ¬ i.timestamp < now - 21600) :=
      List.take_subset 1000 _ hi
    have hcond := (List.mem_filter.mp hi2).2
    rw [decide_eq_true_eq, not_lt] at hcond
    have hts : p.timestamp = i.timestamp := by rw [← hpi]; rfl
    rw [hts]
    linarith
  · intro i hi
    show toAdmin i ∈ (store.take 1000).map toAdmin
    exact List.mem_map.mpr ⟨i, hi, rfl⟩

/-- C2 witness: at time 0 the fresh sample incident is returned by the
public listing and is at most 6 hours old, and it also appears in the
admin listing. -/
theorem C2_expiry_amended_witness :
    (0 : ℚ) - (toPublic sampleIncident).timestamp ≤ 21600 ∧
      toAdmin sampleIncident ∈ (get_admin_incidents [sampleIncident]).1 := by
  constructor
  · refine (C2_expiry_amended 0 none [sampleIncident]).1 (toPublic sampleIncident) ?_
    have hfil : [sampleIncident].filter
        (fun i => ¬ i.timestamp < (0 : ℚ) - 21600) = [sampleIncident] := by
      rw [List.filter_eq_self]
      intro a ha
      rw [List.mem_singleton] at ha
      subst ha
      simp only [decide_eq_true_eq]
      show ¬ (0 : ℚ) < _
      norm_num
    have hlist : (get_incidents 0 none [sampleIncident]).1 =
        [toPublic sampleIncident] := by
      simp only [get_incidents]
      rw [hfil, List.take_of_length_le (by norm_num)]
      rfl
    rw [hlist]
    simp
  · refine (C2_expiry_amended 0 none [sampleIncident]).2 sampleIncident ?_
    simp

/-- The public listing described by the spec's words, as amended: sweep
incidents older than 6 hours, keep the first 1000 survivors, strip contact
fields, and — only for a nonzero `hours` argument — keep the incidents
whose timestamp is at or after `hours` hours before the current time. -/
def listPublicSpec (now : ℚ) (hours : Option ℕ)
    (store : List StoredIncident) : List PublicIncident :=
  let nonExpired := store.filter (fun i => now - i.timestamp ≤ 21600)
  ((nonExpired.take 1000).map toPublic).filter (fun p =>
    match hours with
    | none => true
    | some 0 => true
    | some h => now - h * 3600 ≤ p.timestamp)

/-- C9 counterexample: with `hours = 0` the code's `if hours:` check is
falsy, so no time filter is applied: the listing at time 3600 returns the
incident created at time 0 even though its timestamp is not at (or after)
the cutoff `now - 0 * 3600`, where the claim requires the result to hold
exactly the incidents newer than that cutoff (which would be none). -/
theorem C9_hours_zero_counterexample :
    (get_incidents 3600 (some 0) [sampleIncident]).1 =
        [toPublic sampleIncident] ∧
      ¬ ((3600 : ℚ) - 0 * 3600 ≤ (toPublic sampleIncident).timestamp) := by
  constructor
  · have hfil : [sampleIncident].filter
        (fun i => ¬ i.timestamp < (3600 : ℚ) - 21600) = [sampleIncident] := by
      rw [List.filter_eq_self]
      intro a ha
      rw [List.mem_singleton] at ha
      subst ha
      simp only [decide_eq_true_eq]
      show ¬ (0 : ℚ) < _
      norm_num
    simp only [get_incidents]
    rw [hfil, List.take_of_length_le (by norm_num)]
    rfl
  · show ¬ ((3600 : ℚ) - 0 * 3600 ≤ (0 : ℚ))
    norm_num

/-- C9 (amended): the public listing equals the spec-level description in
`listPublicSpec`: the first 1000 non-expired incidents, time-filtered to
timestamps at or after `now - hours` hours only when `hours` is present
and nonzero (`hours = 0` behaves like no argument, and the boundary
timestamp exactly `hours` hours old is included). -/
theorem C9_listing_amended (now : ℚ) (hours : Option ℕ)
    (store : List StoredIncident) :
    (get_incidents now hours store).1 = listPublicSpec now hours store := by
  have hfilter : store.filter (fun i => ¬ i.timestamp < now - 21600) =
      store.filter (fun i => now - i.timestamp ≤ 21600) := by
    apply List.filter_congr
    intro i _
    rw [decide_eq_decide]
    constructor
    · intro h; linarith [not_lt.mp h]
    · intro h; rw [not_lt]; linarith
  cases hours with
  | none =>
    simp only [get_incidents, listPublicSpec, hfilter]
    rw [List.filter_true]
  | some h =>
    cases h with
    | zero =>
      simp only [get_incidents, listPublicSpec, hfilter]
      rw [List.filter_true]
      exact if_pos trivial
    | succ n =>
      simp only [get_incidents, listPublicSpec, hfilter]
      rw [if_neg (by omega : ¬ (n + 1 = 0))]

lemma create_incident_is_verified (now : ℚ) (newId : String)
    (store : List StoredIncident) (input : IncidentCreate) :
    (create_incident now newId store input).1.is_verified =
      (truthyStr input.contact_email || truthyStr input.contact_phone) := by
  unfold create_incident
  dsimp only

/-- A create request whose `contact_email` key is present but holds the
empty string (and whose own `is_verified` field is `true`). -/
def emptyEmailInput : IncidentCreate :=
  { category := "theft"
    urgency := "low"
    description := "d"
    latitude := 0
    longitude := 0
    contact_email := some ""
    contact_phone := none
    is_verified := true }

/-- A create request with a nonempty contact email. -/
def verifiedInput : IncidentCreate :=
  { category := "theft"
    urgency := "low"
    description := "d"
    latitude := 0
    longitude := 0
    contact_email := some "x@y.com" }

/-- An update payload carrying only a description. -/
def descPayload : UpdatePayload := { description := some "x" }

/-- C5 counterexample: a create input whose `contact_email` is present in
the input (the key is supplied) but empty is stored with
`is_verified = false`, because the code tests Python truthiness
(`bool(input.contact_email or input.contact_phone)`), under which an empty
string counts as absent — contradicting the claim that presence alone
forces `is_verified = true`. -/
theorem C5_empty_contact_counterexample :
    (create_incident 0 "i" [] emptyEmailInput).1.is_verified = false ∧
      emptyEmailInput.contact_email.isSome = true := by
  constructor
  · rw [create_incident_is_verified]
    rfl
  · rfl

/-- C5 (amended): the stored and returned incident has
`is_verified = true` iff at least one of `contact_email` or
`contact_phone` is present with a NONEMPTY value; the `is_verified` value
supplied in the create input has no effect; and an admin update whose
payload does not name `is_verified` leaves every stored incident's flag
unchanged (the flag is not recomputed). -/
theorem C5_verified_amended (now : ℚ) (newId : String)
    (store : List StoredIncident) (input : IncidentCreate) :
    ((create_incident now newId store input).1.is_verified = true ↔
        (∃ s, input.contact_email = some s ∧ s ≠ "") ∨
          (∃ s, input.contact_phone = some s ∧ s ≠ "")) ∧
      (∀ b, (create_incident now newId store
          { input with is_verified := b }).1.is_verified =
        (create_incident now newId store input).1.is_verified) ∧
      (∀ (payload : UpdatePayload) (incident_id : String)
          (store2 : List StoredIncident),
        payload.is_verified = none →
        update_incident store incident_id payload = .ok store2 →
        store2.map (fun i => i.is_verified) =
          store.map (fun i => i.is_verified)) := by
  refine ⟨?_, ?_, ?_⟩
  · rw [create_incident_is_verified, Bool.or_eq_true, truthyStr_eq_true,
      truthyStr_eq_true]
  · intro b
    rw [create_incident_is_verified, create_incident_is_verified]
  · intro payload incident_id store2 hiv hok
    unfold update_incident at hok
    by_cases he : payload.strip.isEmpty = true
    · rw [if_pos he] at hok
      simp at hok
    · rw [if_neg he] at hok
      by_cases hany : store.any (fun i => i.id == incident_id) = true
      · rw [if_pos hany] at hok
        have hstore := Except.ok.inj hok
        rw [← hstore]
        apply map_updateFirst
        intro x
        show (applySet x payload.strip).is_verified = x.is_verified
        unfold applySet UpdatePayload.strip
        dsimp only
        rw [hiv]
        rfl
      · rw [if_neg hany] at hok
        simp at hok

/-- C5 witness: a nonempty contact email yields `is_verified = true`, and
an update that does not name `is_verified` leaves the stored flags
unchanged. -/
theorem C5_verified_amended_witness :
    (create_incident 0 "i" [] verifiedInput).1.is_verified = true ∧
      (updateFirst (fun i => i.id == "a")
          (fun i => applySet i descPayload.strip) [sampleIncident]).map
        (fun i => i.is_verified) =
      [sampleIncident].map (fun i => i.is_verified) := by
  constructor
  · exact (C5_verified_amended 0 "i" [] verifiedInput).1.mpr
      (Or.inl ⟨"x@y.com", rfl, by decide⟩)
  · exact (C5_verified_amended 0 "i" [sampleIncident] verifiedInput).2.2
      descPayload "a" _ rfl rfl

lemma react_found (incident_id : String) (pre : List StoredIncident)
    (i : StoredIncident) (post : List StoredIncident)
    (hpre : ∀ j ∈ pre, j.id ≠ incident_id) (hi : i.id = incident_id)
    (reaction : String)
    (hval : reaction = "like" ∨ reaction = "dislike") :
    react_to_incident (pre ++ i :: post) incident_id reaction =
      .ok (((incrementField (reaction == "like") i).like_count.getD 0,
          (incrementField (reaction == "like") i).dislike_count.getD 0),
        pre ++ incrementField (reaction == "like") i :: post) := by
  have hcond : ¬ (reaction ≠ "like" ∧ reaction ≠ "dislike") := by
    rcases hval with h | h <;> simp [h]
  have hp : (i.id == incident_id) = true := by simpa [beq_iff_eq] using hi
  have hpre' : ∀ j ∈ pre, (j.id == incident_id) = false := by
    intro j hj
    simpa [beq_eq_false_iff_ne] using hpre j hj
  have hany : (pre ++ i :: post).any (fun j => j.id == incident_id) = true := by
    rw [List.any_eq_true]
    exact ⟨i, by simp, hp⟩
  have hp2 : ((incrementField (reaction == "like") i).id == incident_id)
      = true := by
    rw [incrementField_id]
    exact hp
  unfold react_to_incident
  rw [if_neg hcond]
  dsimp only
  rw [if_pos hany,
    updateFirst_append_first _ _ i post hp pre hpre',
    find?_append_first _ _ post hp2 pre hpre']

/-- C6: React yields 400 iff the kind is invalid; with a valid kind it
yields 404 iff no incident has the id; and on the first matching incident
it increments exactly the corresponding counter by 1, changes nothing
else, and returns the updated counter pair. -/
theorem C6_react_spec (store : List StoredIncident)
    (incident_id reaction : String) :
    (react_to_incident store incident_id reaction = .error .badRequest ↔
        (reaction ≠ "like" ∧ reaction ≠ "dislike")) ∧
      ((reaction = "like" ∨ reaction = "dislike") →
        (react_to_incident store incident_id reaction = .error .notFound ↔
          ∀ i ∈ store, i.id ≠ incident_id)) ∧
      (∀ pre i post, store = pre ++ i :: post →
        (∀ j ∈ pre, j.id ≠ incident_id) → i.id = incident_id →
        react_to_incident store incident_id "like" =
          .ok ((i.like_count.getD 0 + 1, i.dislike_count.getD 0),
            pre ++ incrementField true i :: post) ∧
        react_to_incident store incident_id "dislike" =
          .ok ((i.like_count.getD 0, i.dislike_count.getD 0 + 1),
            pre ++ incrementField false i :: post)) := by
  refine ⟨?_, ?_, ?_⟩
  · constructor
    · intro h
      by_contra hcon
      unfold react_to_incident at h
      rw [if_neg hcon] at h
      dsimp only at h
      by_cases hany : store.any (fun i => i.id == incident_id) = true
      · rw [if_pos hany] at h
        cases hfind : (updateFirst (fun i => i.id == incident_id)
            (incrementField (reaction == "like")) store).find?
            (fun i => i.id == incident_id) with
        | none => rw [hfind] at h; simp at h
        | some u => rw [hfind] at h; simp at h
      · rw [if_neg hany] at h
        simp at h
    · intro hcon
      unfold react_to_incident
      rw [if_pos hcon]
  · intro hval
    have hcond : ¬ (reaction ≠ "like" ∧ reaction ≠ "dislike") := by
      rcases hval with h | h <;> simp [h]
    unfold react_to_incident
    rw [if_neg hcond]
    dsimp only
    by_cases hany : store.any (fun i => i.id == incident_id) = true
    · rw [if_pos hany]
      obtain ⟨y, hy, hmem⟩ := updateFirst_exists
        (fun i => i.id == incident_id) (incrementField (reaction == "like"))
        store hany
      have hfs : ((updateFirst (fun i => i.id == incident_id)
          (incrementField (reaction == "like")) store).find?
          (fun i => i.id == incident_id)).isSome := by
        rw [List.find?_isSome]
        refine ⟨_, hmem, ?_⟩
        rw [incrementField_id]
        exact hy
      constructor
      · intro h
        cases hfind : (updateFirst (fun i => i.id == incident_id)
            (incrementField (reaction == "like")) store).find?
            (fun i => i.id == incident_id) with
        | none => rw [hfind] at hfs; simp at hfs
        | some u => rw [hfind] at h; simp at h
      · intro hall
        obtain ⟨x, hx, hbeq⟩ := List.any_eq_true.mp hany
        exact absurd (show x.id = incident_id by
          simpa [beq_iff_eq] using hbeq) (hall x hx)
    · rw [if_neg hany]
      constructor
      · intro _ i hi
        have hfalse := List.any_eq_false.mp (Bool.eq_false_iff.mpr hany) i hi
        intro heq
        exact hfalse (by simpa [beq_iff_eq] using heq)
      · intro _
        rfl
  · intro pre i post hst hpre hi
    subst hst
    constructor
    · have h := react_found incident_id pre i post hpre hi "like" (Or.inl rfl)
      simpa [incrementField] using h
    · have h := react_found incident_id pre i post hpre hi "dislike"
        (Or.inr rfl)
      simpa [incrementField] using h

/-- C6 witness: an invalid kind yields 400, a missing id yields 404, and a
like on the sample incident yields counters (1, 0) with the counter
incremented in the store. -/
theorem C6_react_spec_witness :
    react_to_incident [sampleIncident] "a" "neutral" = .error .badRequest ∧
      react_to_incident [sampleIncident] "zzz" "like" = .error .notFound ∧
      react_to_incident [sampleIncident] "a" "like" =
        .ok ((1, 0), [incrementField true sampleIncident]) := by
  refine ⟨?_, ?_, ?_⟩
  · exact (C6_react_spec [sampleIncident] "a" "neutral").1.mpr
      ⟨by decide, by decide⟩
  · refine ((C6_react_spec [sampleIncident] "zzz" "like").2.1
      (Or.inl rfl)).mpr ?_
    intro i hi
    rw [List.mem_singleton] at hi
    subst hi
    show ("a" : String) ≠ "zzz"
    decide
  · have h := ((C6_react_spec [sampleIncident] "a" "like").2.2
      [] sampleIncident [] rfl
      (by intro j hj; exact absurd hj (List.not_mem_nil j)) rfl).1
    simpa [sampleIncident] using h

/-- C7 counterexample: an update of an existing incident with an empty
payload does not yield HTTP 400.  The handler has no empty-payload check;
the empty `$set` reaches the store, whose rejection surfaces as a generic
server fault, not `InvalidArgument`. -/
theorem C7_empty_update_not_badRequest :
    UpdatePayload.isEmpty (UpdatePayload.strip {}) = true ∧
      update_incident [sampleIncident] "a" {} = .error .serverError ∧
      update_incident [sampleIncident] "a" {} ≠ .error .badRequest := by
  refine ⟨rfl, rfl, ?_⟩
  intro h
  rw [show update_incident [sampleIncident] "a" {} = .error .serverError
    from rfl] at h
  simp at h

/-- C7 (amended): calling Update with a payload that is empty (or becomes
empty after the immutable `id` and `timestamp` fields are removed) fails —
but with the store's rejection of the empty `$set` propagating as a
generic server fault (HTTP 500), not as InvalidArgument/HTTP 400, and
regardless of whether the incident id exists. -/
theorem C7_empty_payload_amended (store : List StoredIncident)
    (incident_id : String) (payload : UpdatePayload)
    (h : payload.strip.isEmpty = true) :
    update_incident store incident_id payload = .error .serverError := by
  unfold update_incident
  rw [if_pos h]

/-- C7 witness: the all-empty payload on the sample store fails with the
server fault. -/
theorem C7_empty_payload_amended_witness :
    update_incident [sampleIncident] "a" ({} : UpdatePayload) =
      .error .serverError :=
  C7_empty_payload_amended [sampleIncident] "a" {} rfl

/-- A payload trying only to rename the immutable `id` field. -/
def idOnlyPayload : UpdatePayload := { id := some "new-id" }

/-- A payload renaming `id` and changing the description (the spec's own
example). -/
def renamePayload : UpdatePayload :=
  { id := some "new-id", description := some "x" }

/-- C8 counterexample: the claim says Update fails with NotFound whenever
no incident has the given id, but with a payload that becomes empty after
`id` and `timestamp` are stripped the store rejects the empty `$set`
before matching, so a missing id yields the server fault instead of
NotFound. -/
theorem C8_missing_id_not_notFound :
    update_incident [] "zzz" idOnlyPayload = .error .serverError ∧
      update_incident [] "zzz" idOnlyPayload ≠ .error .notFound := by
  refine ⟨rfl, ?_⟩
  intro h
  rw [show update_incident [] "zzz" idOnlyPayload = .error .serverError
    from rfl] at h
  simp at h

/-- C8 (amended): for a payload whose effective content (after the
immutable `id` and `timestamp` keys are stripped) is nonempty, Update
fails with NotFound when no incident has the given id; and on the first
incident with the id it merges exactly the stripped payload fields: the
stored `id` and `timestamp` are unchanged even when the payload carries
values for them, and every field not named in the payload is unchanged.
(An effective-empty payload instead hits the store's empty-`$set`
rejection; see the C7 analysis.) -/
theorem C8_update_frame_amended (store : List StoredIncident)
    (incident_id : String) (payload : UpdatePayload) :
    (payload.strip.isEmpty = false → (∀ i ∈ store, i.id ≠ incident_id) →
        update_incident store incident_id payload = .error .notFound) ∧
      (∀ pre i post, store = pre ++ i :: post →
        (∀ j ∈ pre, j.id ≠ incident_id) → i.id = incident_id →
        payload.strip.isEmpty = false →
        update_incident store incident_id payload =
            .ok (pre ++ applySet i payload.strip :: post) ∧
          (applySet i payload.strip).id = i.id ∧
          (applySet i payload.strip).timestamp = i.timestamp ∧
          (payload.category = none →
            (applySet i payload.strip).category = i.category) ∧
          (payload.urgency = none →
            (applySet i payload.strip).urgency = i.urgency) ∧
          (payload.description = none →
            (applySet i payload.strip).description = i.description) ∧
          (payload.latitude = none →
            (applySet i payload.strip).latitude = i.latitude) ∧
          (payload.longitude = none →
            (applySet i payload.strip).longitude = i.longitude) ∧
          (payload.contact_email = none →
            (applySet i payload.strip).contact_email = i.contact_email) ∧
          (payload.contact_phone = none →
            (applySet i payload.strip).contact_phone = i.contact_phone) ∧
          (payload.is_verified = none →
            (applySet i payload.strip).is_verified = i.is_verified) ∧
          (payload.cluster_count = none →
            (applySet i payload.strip).cluster_count = i.cluster_count) ∧
          (payload.like_count = none →
            (applySet i payload.strip).like_count = i.like_count) ∧
          (payload.dislike_count = none →
            (applySet i payload.strip).dislike_count = i.dislike_count)) := by
  constructor
  · intro hne hall
    have hany : store.any (fun i => i.id == incident_id) = false := by
      rw [List.any_eq_false]
      intro x hx
      intro heq
      exact hall x hx (by simpa [beq_iff_eq] using heq)
    unfold update_incident
    rw [if_neg (by simp [hne]), if_neg (by simp [hany])]
  · intro pre i post hst hpre hi hne
    subst hst
    have hp : (i.id == incident_id) = true := by simpa [beq_iff_eq] using hi
    have hpre' : ∀ j ∈ pre, (j.id == incident_id) = false := by
      intro j hj
      simpa [beq_eq_false_iff_ne] using hpre j hj
    have hany : (pre ++ i :: post).any (fun j => j.id == incident_id)
        = true := by
      rw [List.any_eq_true]
      exact ⟨i, by simp, hp⟩
    refine ⟨?_, ?_, ?_, ?_, ?_, ?_, ?_, ?_, ?_, ?_, ?_, ?_, ?_, ?_⟩
    · unfold update_incident
      rw [if_neg (by simp [hne]), if_pos hany,
        updateFirst_append_first _ _ i post hp pre hpre']
    · simp [applySet, UpdatePayload.strip]
    · simp [applySet, UpdatePayload.strip]
    all_goals intro hc
    all_goals simp [applySet, UpdatePayload.strip, hc]

/-- C8 witness: the spec's own example — payload
`{"id": "new-id", "description": "x"}` on the sample incident — succeeds,
keeps `id` and `timestamp` unchanged, and a missing id with the same
payload yields NotFound. -/
theorem C8_update_frame_amended_witness :
    update_incident [sampleIncident] "a" renamePayload =
        .ok [applySet sampleIncident renamePayload.strip] ∧
      (applySet sampleIncident renamePayload.strip).id = sampleIncident.id ∧
      (applySet sampleIncident renamePayload.strip).timestamp =
        sampleIncident.timestamp ∧
      update_incident [] "zzz" renamePayload = .error .notFound := by
  have h := (C8_update_frame_amended [sampleIncident] "a" renamePayload).2
    [] sampleIncident [] rfl
    (by intro j hj; exact absurd hj (List.not_mem_nil j)) rfl rfl
  exact ⟨h.1, h.2.1, h.2.2.1,
    (C8_update_frame_amended [] "zzz" renamePayload).1 rfl
      (by intro i hi; exact absurd hi (List.not_mem_nil i))⟩

end CommunityMap
